import Mathlib

/-!
Verification of ShortCord.ai core components against its specification.

Strings are modelled as `List Char` where character-level operations matter
(the output chunker), and as Lean `String` elsewhere.  Python `deque`s are
modelled as Lean lists (left = oldest).  External transports (HTTP fetches,
the Gemini provider, reaction enumeration) are modelled as explicit outcome
values carried in the input data.
-/

/-! ## Output chunker (src/bot/utils/text_utils.py) -/

/-- Python whitespace characters recognised by `str.strip` / `rstrip` / `lstrip`. -/
def isWs (c : Char) : Bool :=
  c == ' ' || c == '\t' || c == '\n' || c == '\r' || c == '\x0b' || c == '\x0c'

/-- Python `s.lstrip()`. -/
def lstrip (s : List Char) : List Char := s.dropWhile isWs

/-- Python `s.rstrip()`. -/
def rstrip (s : List Char) : List Char := (s.reverse.dropWhile isWs).reverse

/-- Python `s.strip()`. -/
def stripWs (s : List Char) : List Char := lstrip (rstrip s)

/-- The non-whitespace characters of a string, in order. -/
def filterNW (s : List Char) : List Char := s.filter (fun c => !(isWs c))

/-- Python `s.rfind(pat)` for a nonempty `pat`: the largest index at which
`pat` occurs as a contiguous substring of `s` (`none` for Python's `-1`). -/
def rfind (s pat : List Char) : Option Nat :=
  ((List.range s.length).filter (fun i => pat.isPrefixOf (s.drop i))).getLast?

/-- The split-marker preference list of `find_best_split_point`. -/
def split_patterns : List (List Char) :=
  ["\n\n".toList, ". ".toList, ".\n".toList, "! ".toList, "?\n".toList,
   "? ".toList, "!\n".toList, "\n".toList, "; ".toList, ", ".toList,
   " - ".toList, " ".toList]

/-- The pattern loop of `find_best_split_point`: first pattern with an
occurrence wins, returning the position just after the occurrence. -/
def findPattern (search : List Char) : List (List Char) → Option Nat
  | [] => none
  | p :: ps =>
    match rfind search p with
    | some i => some (i + p.length)
    | none => findPattern search ps

/-- `find_best_split_point(text, max_length)`; `none` models Python's `-1`. -/
def find_best_split_point (text : List Char) (maxLength : Nat) : Option Nat :=
  if text.length ≤ maxLength then some text.length
  else findPattern (text.take maxLength) split_patterns

/-- The `while len(remaining_text) > max_length` loop of `smart_split_message`,
with a fuel argument bounding the number of iterations; `fuel = text.length`
is enough whenever `1 ≤ maxLength` (each iteration removes at least one
character), so with that fuel this is exactly the Python loop. -/
def smartSplitAux (maxLength : Nat) : Nat → List Char → List (List Char)
  | 0, _ => []
  | fuel + 1, remaining =>
    if remaining.length ≤ maxLength then
      if stripWs remaining ≠ [] then [stripWs remaining] else []
    else
      let sp := (find_best_split_point remaining maxLength).getD maxLength
      rstrip (remaining.take sp) :: smartSplitAux maxLength fuel (lstrip (remaining.drop sp))

/-- `smart_split_message(text, max_length)`. -/
def smart_split_message (text : List Char) (maxLength : Nat) : List (List Char) :=
  if text.length ≤ maxLength then [text]
  else smartSplitAux maxLength text.length text

/-! ### Chunker lemmas -/

theorem filterNW_dropWhile (s : List Char) : filterNW (s.dropWhile isWs) = filterNW s := by
  induction s with
  | nil => rfl
  | cons c t ih =>
    by_cases h : isWs c
    · simpa [filterNW, List.dropWhile_cons, h] using ih
    · simp [filterNW, List.dropWhile_cons, h]

theorem filterNW_append (s t : List Char) : filterNW (s ++ t) = filterNW s ++ filterNW t := by
  simp [filterNW, List.filter_append]

theorem filterNW_reverse (s : List Char) : filterNW s.reverse = (filterNW s).reverse := by
  simp [filterNW, List.filter_reverse]

theorem filterNW_lstrip (s : List Char) : filterNW (lstrip s) = filterNW s :=
  filterNW_dropWhile s

theorem filterNW_rstrip (s : List Char) : filterNW (rstrip s) = filterNW s := by
  unfold rstrip
  rw [filterNW_reverse, filterNW_dropWhile, filterNW_reverse, List.reverse_reverse]

theorem filterNW_stripWs (s : List Char) : filterNW (stripWs s) = filterNW s := by
  unfold stripWs; rw [filterNW_lstrip, filterNW_rstrip]

theorem stripWs_nil_filterNW (s : List Char) (h : stripWs s = []) : filterNW s = [] := by
  rw [← filterNW_stripWs, h]; rfl

theorem lstrip_length_le (s : List Char) : (lstrip s).length ≤ s.length :=
  (List.dropWhile_sublist isWs).length_le

theorem rstrip_length_le (s : List Char) : (rstrip s).length ≤ s.length := by
  unfold rstrip
  calc (s.reverse.dropWhile isWs).reverse.length
      = (s.reverse.dropWhile isWs).length := by rw [List.length_reverse]
    _ ≤ s.reverse.length := (List.dropWhile_sublist isWs).length_le
    _ = s.length := by rw [List.length_reverse]

theorem stripWs_length_le (s : List Char) : (stripWs s).length ≤ s.length :=
  le_trans (lstrip_length_le _) (rstrip_length_le _)

theorem rfind_spec (s pat : List Char) (i : Nat) (h : rfind s pat = some i) :
    pat.isPrefixOf (s.drop i) = true ∧ i < s.length := by
  unfold rfind at h
  have hmem := List.mem_of_mem_getLast? (Option.mem_def.mpr h)
  rw [List.mem_filter] at hmem
  exact ⟨hmem.2, List.mem_range.mp hmem.1⟩

theorem rfind_add_length_le (s pat : List Char) (i : Nat) (h : rfind s pat = some i) :
    i + pat.length ≤ s.length := by
  obtain ⟨hpre, hlt⟩ := rfind_spec s pat i h
  have hp : pat <+: s.drop i := List.isPrefixOf_iff_prefix.mp hpre
  have hlen : pat.length ≤ (s.drop i).length := hp.length_le
  rw [List.length_drop] at hlen
  omega

theorem findPattern_bounds (search : List Char) (pats : List (List Char))
    (hne : ∀ p ∈ pats, p ≠ []) (k : Nat) (h : findPattern search pats = some k) :
    1 ≤ k ∧ k ≤ search.length := by
  induction pats with
  | nil => simp [findPattern] at h
  | cons p ps ih =>
    unfold findPattern at h
    cases hr : rfind search p with
    | some i =>
      rw [hr] at h
      have hk : k = i + p.length := by injection h; omega
      have hlen := rfind_add_length_le search p i hr
      have hpne : p ≠ [] := hne p (by simp)
      have : 1 ≤ p.length := by
        cases p with
        | nil => exact absurd rfl hpne
        | cons a t => simp
      omega
    | none =>
      rw [hr] at h
      exact ih (fun q hq => hne q (by simp [hq])) h

theorem split_patterns_ne_nil : ∀ p ∈ split_patterns, p ≠ [] := by decide

/-- Inside the splitting loop (`maxLength < remaining.length`), the chosen
split point is between `1` and `maxLength`. -/
theorem split_point_bounds (remaining : List Char) (maxLength : Nat)
    (h1 : 1 ≤ maxLength) (h2 : maxLength < remaining.length) :
    1 ≤ (find_best_split_point remaining maxLength).getD maxLength ∧
      (find_best_split_point remaining maxLength).getD maxLength ≤ maxLength := by
  unfold find_best_split_point
  rw [if_neg (by omega)]
  cases hf : findPattern (remaining.take maxLength) split_patterns with
  | none => exact ⟨h1, le_refl maxLength⟩
  | some k =>
    have hb := findPattern_bounds _ _ split_patterns_ne_nil k hf
    have htake : (remaining.take maxLength).length = maxLength := by
      rw [List.length_take]; omega
    rw [htake] at hb
    exact hb

theorem smartSplitAux_chunk_le (maxLength : Nat) (h1 : 1 ≤ maxLength) :
    ∀ fuel remaining c, c ∈ smartSplitAux maxLength fuel remaining →
      c.length ≤ maxLength := by
  intro fuel
  induction fuel with
  | zero => intro remaining c hc; simp [smartSplitAux] at hc
  | succ n ih =>
    intro remaining c hc
    unfold smartSplitAux at hc
    by_cases hr : remaining.length ≤ maxLength
    · rw [if_pos hr] at hc
      by_cases hs : stripWs remaining ≠ []
      · rw [if_pos hs] at hc
        simp at hc
        subst hc
        exact le_trans (stripWs_length_le remaining) hr
      · rw [if_neg hs] at hc
        simp at hc
    · rw [if_neg hr] at hc
      simp only [List.mem_cons] at hc
      cases hc with
      | inl hc =>
        subst hc
        have hsp := split_point_bounds remaining maxLength h1 (by omega)
        calc (rstrip (remaining.take _)).length
            ≤ (remaining.take _).length := rstrip_length_le _
          _ ≤ _ := by rw [List.length_take]; omega
          _ ≤ maxLength := hsp.2
      | inr hc => exact ih _ c hc

theorem smartSplitAux_flatten (maxLength : Nat) (h1 : 1 ≤ maxLength) :
    ∀ fuel remaining, remaining.length ≤ fuel →
      filterNW (smartSplitAux maxLength fuel remaining).flatten = filterNW remaining := by
  intro fuel
  induction fuel with
  | zero =>
    intro remaining hlen
    have : remaining = [] := List.length_eq_zero.mp (by omega)
    subst this
    rfl
  | succ n ih =>
    intro remaining hlen
    unfold smartSplitAux
    by_cases hr : remaining.length ≤ maxLength
    · rw [if_pos hr]
      by_cases hs : stripWs remaining ≠ []
      · rw [if_pos hs]
        simp [filterNW_stripWs]
      · rw [if_neg hs]
        push_neg at hs
        rw [stripWs_nil_filterNW remaining hs]
        rfl
    · rw [if_neg hr]
      have hsp := split_point_bounds remaining maxLength h1 (by omega)
      set sp := (find_best_split_point remaining maxLength).getD maxLength with hspdef
      have hrec : (lstrip (remaining.drop sp)).length ≤ n := by
        have := lstrip_length_le (remaining.drop sp)
        rw [List.length_drop] at this
        omega
      rw [List.flatten_cons]
      rw [filterNW_append, filterNW_rstrip, ih _ hrec, filterNW_lstrip]
      rw [← filterNW_append, List.take_append_drop]

/-! ## Rate governor (src/ratelimiter.py) -/

/-- The three `deque`s of `RateLimiter`, oldest entry first.  Timestamps are
integer seconds; the token queue holds `(time, tokens)` pairs. -/
structure RLState where
  requests_per_minute : List Int
  tokens_per_minute : List (Int × Nat)
  requests_per_day : List Int
deriving Repr, DecidableEq

/-- A fresh `RateLimiter()`. -/
def initState : RLState := ⟨[], [], []⟩

/-- `deque(maxlen=cap).append`: appending to a full deque drops from the left. -/
def appendMax {α : Type} (cap : Nat) (xs : List α) (x : α) : List α :=
  let ys := xs ++ [x]
  if cap < ys.length then ys.drop (ys.length - cap) else ys

/-- The `while ... popleft()` pruning loop on a timestamp deque: drop leading
entries strictly older than `cutoff`. -/
def pruneReqs (cutoff : Int) : List Int → List Int
  | [] => []
  | t :: ts => if t < cutoff then pruneReqs cutoff ts else t :: ts

/-- Pruning loop on the `(time, tokens)` deque. -/
def pruneTokens (cutoff : Int) : List (Int × Nat) → List (Int × Nat)
  | [] => []
  | e :: es => if e.1 < cutoff then pruneTokens cutoff es else e :: es

/-- `sum(entry['tokens'] for entry in self.tokens_per_minute)`. -/
def sumTokens (l : List (Int × Nat)) : Nat := (l.map (fun e => e.2)).sum

/-- `RateLimiter.can_make_request(estimated_tokens)` at time `now`: prunes the
three deques in place (returned as the first component) and returns the
admission verdict. -/
def can_make_request (st : RLState) (estimated_tokens : Nat) (now : Int) : RLState × Bool :=
  (⟨pruneReqs (now - 60) st.requests_per_minute,
    pruneTokens (now - 60) st.tokens_per_minute,
    pruneReqs (now - 86400) st.requests_per_day⟩,
   if 14 ≤ (pruneReqs (now - 60) st.requests_per_minute).length ∨
       240000 < sumTokens (pruneTokens (now - 60) st.tokens_per_minute) + estimated_tokens ∨
       950 ≤ (pruneReqs (now - 86400) st.requests_per_day).length
   then false else true)

/-- `RateLimiter.record_request(tokens_used)` at time `now`. -/
def record_request (st : RLState) (tokens_used : Nat) (now : Int) : RLState :=
  ⟨appendMax 15 st.requests_per_minute now,
   appendMax 250000 st.tokens_per_minute (now, tokens_used),
   appendMax 1000 st.requests_per_day now⟩

/-- Events of a correctly interleaved usage of the governor: a bare admission
check, or an admission check that returned `true` immediately followed by a
`record_request` of the same token count at the same time. -/
inductive RLEvent where
  | check (est : Nat) (now : Int)
  | checkedRecord (est : Nat) (now : Int)

/-- Operational semantics of correctly interleaved governor traces:
`Steps st es st'` means running the events `es` from state `st` (where every
`checkedRecord` event requires its admission check to have returned `true`)
ends in state `st'`. -/
inductive Steps : RLState → List RLEvent → RLState → Prop where
  | nil : ∀ st, Steps st [] st
  | check : ∀ st es st' e n,
      Steps (can_make_request st e n).1 es st' →
      Steps st (RLEvent.check e n :: es) st'
  | record : ∀ st es st' e n,
      (can_make_request st e n).2 = true →
      Steps (record_request (can_make_request st e n).1 e n) es st' →
      Steps st (RLEvent.checkedRecord e n :: es) st'

/-- Window invariant: all three windows are within their admission caps, and
the token queue's timestamps mirror the per-minute request queue. -/
def RLInv (st : RLState) : Prop :=
  st.requests_per_minute.length ≤ 14 ∧
  sumTokens st.tokens_per_minute ≤ 240000 ∧
  st.requests_per_day.length ≤ 950 ∧
  st.tokens_per_minute.map (fun e => e.1) = st.requests_per_minute

theorem pruneReqs_length_le (c : Int) (l : List Int) :
    (pruneReqs c l).length ≤ l.length := by
  induction l with
  | nil => simp [pruneReqs]
  | cons t ts ih =>
    unfold pruneReqs
    by_cases h : t < c
    · rw [if_pos h]; exact le_trans ih (by simp)
    · rw [if_neg h]

theorem pruneTokens_length_le (c : Int) (l : List (Int × Nat)) :
    (pruneTokens c l).length ≤ l.length := by
  induction l with
  | nil => simp [pruneTokens]
  | cons e es ih =>
    unfold pruneTokens
    by_cases h : e.1 < c
    · rw [if_pos h]; exact le_trans ih (by simp)
    · rw [if_neg h]

theorem pruneTokens_sum_le (c : Int) (l : List (Int × Nat)) :
    sumTokens (pruneTokens c l) ≤ sumTokens l := by
  induction l with
  | nil => simp [pruneTokens]
  | cons e es ih =>
    unfold pruneTokens
    by_cases h : e.1 < c
    · rw [if_pos h]
      exact le_trans ih (by simp [sumTokens])
    · rw [if_neg h]

theorem pruneTokens_map_fst (c : Int) (l : List (Int × Nat)) :
    (pruneTokens c l).map (fun e => e.1) = pruneReqs c (l.map (fun e => e.1)) := by
  induction l with
  | nil => simp [pruneTokens, pruneReqs]
  | cons e es ih =>
    unfold pruneTokens
    simp only [List.map_cons]
    unfold pruneReqs
    by_cases h : e.1 < c
    · rw [if_pos h, if_pos h, ih]
    · rw [if_neg h, if_neg h, List.map_cons]

theorem appendMax_of_le {α : Type} (cap : Nat) (xs : List α) (x : α)
    (h : xs.length + 1 ≤ cap) : appendMax cap xs x = xs ++ [x] := by
  unfold appendMax
  rw [if_neg (by simp; omega)]

theorem RLInv_check (st : RLState) (e : Nat) (n : Int) (h : RLInv st) :
    RLInv (can_make_request st e n).1 := by
  obtain ⟨h1, h2, h3, h4⟩ := h
  refine ⟨?_, ?_, ?_, ?_⟩
  · exact le_trans (pruneReqs_length_le _ _) h1
  · exact le_trans (pruneTokens_sum_le _ _) h2
  · exact le_trans (pruneReqs_length_le _ _) h3
  · show (pruneTokens (n - 60) st.tokens_per_minute).map _ = pruneReqs (n - 60) st.requests_per_minute
    rw [pruneTokens_map_fst, h4]

theorem can_make_request_true (st : RLState) (e : Nat) (n : Int)
    (h : (can_make_request st e n).2 = true) :
    (can_make_request st e n).1.requests_per_minute.length < 14 ∧
    sumTokens (can_make_request st e n).1.tokens_per_minute + e ≤ 240000 ∧
    (can_make_request st e n).1.requests_per_day.length < 950 := by
  have h2 : (if 14 ≤ (pruneReqs (n - 60) st.requests_per_minute).length ∨
       240000 < sumTokens (pruneTokens (n - 60) st.tokens_per_minute) + e ∨
       950 ≤ (pruneReqs (n - 86400) st.requests_per_day).length
     then false else true) = true := h
  by_cases hc :
      14 ≤ (pruneReqs (n - 60) st.requests_per_minute).length ∨
      240000 < sumTokens (pruneTokens (n - 60) st.tokens_per_minute) + e ∨
      950 ≤ (pruneReqs (n - 86400) st.requests_per_day).length
  · rw [if_pos hc] at h2; cases h2
  · push_neg at hc
    refine ⟨?_, ?_, ?_⟩
    · show (pruneReqs (n - 60) st.requests_per_minute).length < 14
      omega
    · show sumTokens (pruneTokens (n - 60) st.tokens_per_minute) + e ≤ 240000
      omega
    · show (pruneReqs (n - 86400) st.requests_per_day).length < 950
      omega

theorem RLInv_record (st : RLState) (e : Nat) (n : Int) (h : RLInv st)
    (hok : (can_make_request st e n).2 = true) :
    RLInv (record_request (can_make_request st e n).1 e n) := by
  have hp := RLInv_check st e n h
  obtain ⟨hb1, hb2, hb3⟩ := can_make_request_true st e n hok
  set p := (can_make_request st e n).1 with hpdef
  obtain ⟨hp1, hp2, hp3, hp4⟩ := hp
  have hlen : p.tokens_per_minute.length = p.requests_per_minute.length := by
    have := congrArg List.length hp4
    simpa using this
  unfold record_request
  rw [appendMax_of_le 15 _ _ (by omega),
      appendMax_of_le 250000 _ _ (by omega),
      appendMax_of_le 1000 _ _ (by omega)]
  refine ⟨?_, ?_, ?_, ?_⟩
  · simp; omega
  · simp [sumTokens, List.map_append, List.sum_append]
    unfold sumTokens at hb2
    omega
  · simp; omega
  · simp [List.map_append, hp4]

theorem steps_preserve_inv (st : RLState) (es : List RLEvent) (st' : RLState)
    (hinv : RLInv st) (h : Steps st es st') : RLInv st' := by
  induction h with
  | nil st => exact hinv
  | check st es st' e n _ ih => exact ih (RLInv_check st e n hinv)
  | record st es st' e n hok _ ih => exact ih (RLInv_record st e n hinv hok)

theorem initState_inv : RLInv initState := by
  refine ⟨by simp [initState], by simp [initState, sumTokens], by simp [initState], by simp [initState]⟩

/-! ### Claim theorems: chunker and rate governor -/

/-- C3 (amended): for every input text and every maxLength ≥ 1, each chunk
returned by `smart_split_message` has length at most maxLength, and the
chunks preserve exactly the non-whitespace characters of the original text
in order (only whitespace characters are dropped at split points and at the
final trim); single-space re-insertion does not in general reproduce the
trimmed original, since whitespace runs are collapsed. -/
theorem c3_chunker_amended (text : List Char) (maxLength : Nat) (h : 1 ≤ maxLength) :
    (∀ c ∈ smart_split_message text maxLength, c.length ≤ maxLength) ∧
    filterNW (smart_split_message text maxLength).flatten = filterNW text := by
  unfold smart_split_message
  by_cases ht : text.length ≤ maxLength
  · rw [if_pos ht]
    constructor
    · intro c hc
      simp at hc
      subst hc
      exact ht
    · simp
  · rw [if_neg ht]
    exact ⟨fun c hc => smartSplitAux_chunk_le maxLength h text.length text c hc,
           smartSplitAux_flatten maxLength h text.length text (le_refl _)⟩

/-- C3 counterexample: on `"a  b"` with maxLength 2 the chunker returns
`["a", "b"]`, and neither re-inserting a single space at the whitespace
split point nor plain concatenation reproduces the trimmed original
`"a  b"` (the double space is collapsed). -/
theorem c3_chunker_counterexample :
    smart_split_message ("a  b".toList) 2 = ["a".toList, "b".toList] ∧
    "a".toList ++ " ".toList ++ "b".toList ≠ stripWs ("a  b".toList) ∧
    "a".toList ++ "b".toList ≠ stripWs ("a  b".toList) := by decide

/-- Witness for `c3_chunker_amended` at `"ab cd"`, maxLength 3. -/
theorem c3_chunker_witness :
    1 ≤ 3 ∧
    ((∀ c ∈ smart_split_message ("ab cd".toList) 3, c.length ≤ 3) ∧
     filterNW (smart_split_message ("ab cd".toList) 3).flatten = filterNW ("ab cd".toList)) :=
  ⟨by decide, c3_chunker_amended ("ab cd".toList) 3 (by decide)⟩

/-- C10: `smart_split_message` can return an empty-string chunk: on the text
`"  x"` (two leading spaces) with maxLength 1 the first loop iteration
splits after the first space and right-trims it to the empty chunk, which is
appended without an emptiness check; only the final remainder is checked. -/
theorem c10_empty_chunk :
    [] ∈ smart_split_message ("  x".toList) 1 ∧
    smart_split_message ("  x".toList) 1 = [[], "x".toList] := by decide

/-- C2: `can_make_request` returns true only if, after pruning entries older
than 60 s (minute windows) and 86400 s (day window) relative to `now`, the
per-minute request count is below 14, the in-window token sum plus the
estimate is at most 240000, and the per-day request count is below 950; and
along every correctly interleaved check/record trace from a fresh limiter,
no window ever exceeds its cap (minute count ≤ 14, token sum ≤ 240000, day
count ≤ 950). -/
theorem c2_rate_governor_caps :
    (∀ (st : RLState) (est : Nat) (now : Int),
        (can_make_request st est now).2 = true →
        (can_make_request st est now).1.requests_per_minute.length < 14 ∧
        sumTokens (can_make_request st est now).1.tokens_per_minute + est ≤ 240000 ∧
        (can_make_request st est now).1.requests_per_day.length < 950) ∧
    (∀ (es : List RLEvent) (st' : RLState), Steps initState es st' →
        st'.requests_per_minute.length ≤ 14 ∧
        sumTokens st'.tokens_per_minute ≤ 240000 ∧
        st'.requests_per_day.length ≤ 950) := by
  constructor
  · exact can_make_request_true
  · intro es st' h
    obtain ⟨a, b, c, _⟩ := steps_preserve_inv initState es st' initState_inv h
    exact ⟨a, b, c⟩

/-- Witness for `c2_rate_governor_caps`: a fresh limiter admits a 5-token
request at time 0, and after checking and recording it all windows are
within caps. -/
theorem c2_rate_governor_caps_witness :
    ((can_make_request initState 5 0).2 = true ∧
     (can_make_request initState 5 0).1.requests_per_minute.length < 14 ∧
     sumTokens (can_make_request initState 5 0).1.tokens_per_minute + 5 ≤ 240000 ∧
     (can_make_request initState 5 0).1.requests_per_day.length < 950) ∧
    ((record_request (can_make_request initState 5 0).1 5 0).requests_per_minute.length ≤ 14 ∧
     sumTokens (record_request (can_make_request initState 5 0).1 5 0).tokens_per_minute ≤ 240000 ∧
     (record_request (can_make_request initState 5 0).1 5 0).requests_per_day.length ≤ 950) :=
  ⟨⟨by decide, c2_rate_governor_caps.1 initState 5 0 (by decide)⟩,
   c2_rate_governor_caps.2 [RLEvent.checkedRecord 5 0] _
     (Steps.record initState [] _ 5 0 (by decide) (Steps.nil _))⟩

/-! ## Privacy registry (src/bot/utils/cryptography_utils.py)

`PrivacyManager._hash_user_id` is `sha256(f"{user_id}{salt}")`; the hash is
an opaque cryptographic function, so the operations are parameterised over
an arbitrary token-derivation function `hash : Nat → String`.  The Python
`set` of opted-out tokens is modelled as a list with set-like update
(membership-guarded insert, `erase` for removal). -/

/-- `PrivacyManager.is_user_opted_out(user_id)`. -/
def is_user_opted_out (hash : Nat → String) (opted_out_users : List String)
    (user_id : Nat) : Bool :=
  opted_out_users.contains (hash user_id)

/-- `PrivacyManager.opt_out_user(user_id)`: returns the boolean result and
the updated opted-out set. -/
def opt_out_user (hash : Nat → String) (opted_out_users : List String)
    (user_id : Nat) : Bool × List String :=
  if opted_out_users.contains (hash user_id) then (false, opted_out_users)
  else (true, hash user_id :: opted_out_users)

/-- `PrivacyManager.opt_in_user(user_id)`: returns the boolean result and
the updated opted-out set. -/
def opt_in_user (hash : Nat → String) (opted_out_users : List String)
    (user_id : Nat) : Bool × List String :=
  if opted_out_users.contains (hash user_id) then
    (true, opted_out_users.erase (hash user_id))
  else (false, opted_out_users)

/-- `PrivacyManager.get_opted_out_count()`. -/
def get_opted_out_count (opted_out_users : List String) : Nat :=
  opted_out_users.length

/-! ## Conversation window selector (src/bot/handlers/message_handler.py,
src/bot/commands/summarize.py)

`channel.history(limit=n)` is modelled as a newest-first list of messages of
which the first `n` are yielded. -/

/-- Outcome of the HTTP GET for an attachment's URL (external transport). -/
inductive Transport where
  | response (status : Nat) (data : List Nat)
  | fault
deriving Repr, DecidableEq

/-- A Discord attachment snapshot, together with the external world's
responses for it: `transport` is the outcome of downloading its URL and
`part_fails` is whether `types.Part.from_bytes` raises on the downloaded
bytes. -/
structure Attachment where
  filename : String
  content_type : Option String
  size : Nat
  transport : Transport
  part_fails : Bool
deriving Repr, DecidableEq

/-- An embed field (`field.name`, `field.value`). -/
structure EmbedField where
  name : String
  value : String
deriving Repr, DecidableEq

/-- A Discord embed snapshot; `none` models falsy/absent members. -/
structure Embed where
  title : Option String
  description : Option String
  url : Option String
  fields : List EmbedField
  image : Option String
  video : Option String
  thumbnail : Option String
deriving Repr, DecidableEq

/-- A reaction emoji: unicode string or custom emoji with a name. -/
inductive Emoji where
  | unicode (s : String)
  | custom (name : String)
deriving Repr, DecidableEq

/-- A user yielded by `reaction.users()`. -/
structure ReactionUser where
  id : Nat
  display_name : String
  name : String
deriving Repr, DecidableEq

/-- A reaction snapshot: emoji, total count, and the users the transport
would enumerate. -/
structure Reaction where
  emoji : Emoji
  count : Nat
  users : List ReactionUser
deriving Repr, DecidableEq

/-- A Discord message snapshot.  `reference` holds the referenced message id
when the message is a reply (`message.reference.message_id`);
`reaction_fetch_fails` is whether enumerating reaction users raises. -/
structure Msg where
  id : Nat
  author_id : Nat
  author_display_name : String
  author_name : String
  created_at : Int
  content : String
  reference : Option Nat
  embeds : List Embed
  reactions : List Reaction
  reaction_fetch_fails : Bool
  attachments : List Attachment
deriving Repr, DecidableEq

/-- Python `s.startswith(pre)`. -/
def strStartsWith (s pre : String) : Bool :=
  pre.toList.isPrefixOf s.toList

/-- The anchor test of `get_messages_since_user_activity`: a message by the
calling user whose content does not start with the command prefix `!`. -/
def isAnchor (user_id : Nat) (m : Msg) : Bool :=
  m.author_id == user_id && !(strStartsWith m.content "!")

/-- The `async for message in channel.history(limit=...)` loop of
`get_messages_since_user_activity`: collect newest-first until the anchor is
found (inclusive), reporting whether it was found. -/
def collectSince (user_id : Nat) : List Msg → List Msg × Bool
  | [] => ([], false)
  | m :: rest =>
    if isAnchor user_id m then ([m], true)
    else
      let r := collectSince user_id rest
      (m :: r.1, r.2)

/-- `MessageProcessor.get_messages_since_user_activity(channel, user_id,
limit)` over a newest-first channel history. -/
def get_messages_since_user_activity (history : List Msg) (user_id : Nat)
    (limit : Nat) : List Msg :=
  let r := collectSince user_id (history.take limit)
  let messages := if r.2 && !r.1.isEmpty then r.1.dropLast else r.1
  messages.reverse

/-- The count-mode selection of `SummarizeCog.summarize`: fetch
`limit = count + 1` newest-first, then `messages[:0:-1]` (reverse to
chronological order, excluding the newest element). -/
def summarize_count_select (history : List Msg) (count : Nat) : List Msg :=
  ((history.take (count + 1)).reverse).dropLast

theorem collectSince_no_anchor (user_id : Nat) (l : List Msg)
    (h : ∀ m ∈ l, isAnchor user_id m = false) :
    collectSince user_id l = (l, false) := by
  induction l with
  | nil => rfl
  | cons m rest ih =>
    unfold collectSince
    rw [if_neg (by simp [h m (by simp)])]
    rw [ih (fun x hx => h x (by simp [hx]))]

theorem collectSince_anchor (user_id : Nat) (l : List Msg)
    (h : ∃ m ∈ l, isAnchor user_id m = true) :
    ∃ a, collectSince user_id l =
      (l.takeWhile (fun m => !isAnchor user_id m) ++ [a], true) ∧
      isAnchor user_id a = true := by
  induction l with
  | nil => simp at h
  | cons m rest ih =>
    by_cases hm : isAnchor user_id m = true
    · refine ⟨m, ?_, hm⟩
      unfold collectSince
      rw [if_pos hm, List.takeWhile_cons]
      simp [hm]
    · have hrest : ∃ x ∈ rest, isAnchor user_id x = true := by
        obtain ⟨x, hx, hax⟩ := h
        simp at hx
        cases hx with
        | inl hx => subst hx; exact absurd hax hm
        | inr hx => exact ⟨x, hx, hax⟩
      obtain ⟨a, ha, haa⟩ := ih hrest
      refine ⟨a, ?_, haa⟩
      unfold collectSince
      rw [if_neg (by simp [hm]), ha, List.takeWhile_cons]
      simp [hm]

/-! ### Claim theorems: selectors and privacy registry -/

/-- C5: walking newest-first, if an anchor message (from the user, not a
command) occurs within the fetch limit, the result is exactly the messages
strictly newer than the anchor, reversed to chronological order (the anchor
itself is excluded); if no anchor occurs within the limit, all collected
messages are returned in chronological order with nothing dropped. -/
theorem c5_since_activity_selector (history : List Msg) (user_id limit : Nat) :
    ((∃ m ∈ history.take limit, isAnchor user_id m = true) →
      get_messages_since_user_activity history user_id limit =
        ((history.take limit).takeWhile (fun m => !isAnchor user_id m)).reverse) ∧
    ((∀ m ∈ history.take limit, isAnchor user_id m = false) →
      get_messages_since_user_activity history user_id limit =
        (history.take limit).reverse) := by
  constructor
  · intro h
    obtain ⟨a, ha, _⟩ := collectSince_anchor user_id _ h
    unfold get_messages_since_user_activity
    rw [ha]
    simp [List.dropLast_concat]
  · intro h
    unfold get_messages_since_user_activity
    rw [collectSince_no_anchor user_id _ h]
    simp

/-- A plain message from user 7 (an anchor for user 7). -/
def msgAnchor : Msg := ⟨1, 7, "A", "", 0, "hello", none, [], [], false, []⟩

/-- A message from another user. -/
def msgOther : Msg := ⟨2, 8, "B", "", 10, "hi", none, [], [], false, []⟩

/-- A command message from user 7 (not an anchor: starts with `!`). -/
def msgCmd : Msg := ⟨3, 7, "A", "", 20, "!summarize", none, [], [], false, []⟩

/-- Witness for `c5_since_activity_selector`: one history where the anchor
is found (and excluded), one where it is not (nothing dropped). -/
theorem c5_since_activity_selector_witness :
    ((∃ m ∈ [msgCmd, msgOther, msgAnchor].take 10, isAnchor 7 m = true) ∧
     get_messages_since_user_activity [msgCmd, msgOther, msgAnchor] 7 10 =
       (([msgCmd, msgOther, msgAnchor].take 10).takeWhile (fun m => !isAnchor 7 m)).reverse) ∧
    ((∀ m ∈ [msgCmd, msgOther].take 10, isAnchor 7 m = false) ∧
     get_messages_since_user_activity [msgCmd, msgOther] 7 10 =
       ([msgCmd, msgOther].take 10).reverse) :=
  ⟨⟨by decide, (c5_since_activity_selector [msgCmd, msgOther, msgAnchor] 7 10).1 (by decide)⟩,
   ⟨by decide, (c5_since_activity_selector [msgCmd, msgOther] 7 10).2 (by decide)⟩⟩

/-- C6: for a count-mode request with count `N` against a channel holding
exactly `N + 1` messages (newest first, the newest being the triggering
command), the selector fetches `limit = N + 1`, drops the single newest
message, and returns the oldest `N` messages in chronological order. -/
theorem c6_count_mode_selector (history : List Msg) (count : Nat)
    (h : history.length = count + 1) :
    summarize_count_select history count = (history.drop 1).reverse ∧
    (summarize_count_select history count).length = count := by
  have htake : history.take (count + 1) = history := by
    rw [← h]; exact List.take_length history
  cases history with
  | nil => simp at h
  | cons newest older =>
    unfold summarize_count_select
    rw [htake]
    constructor
    · rw [List.reverse_cons, List.dropLast_concat]
      simp
    · rw [List.reverse_cons, List.dropLast_concat]
      simp at h
      simp [h]

/-- Witness for `c6_count_mode_selector` on a 3-message channel, count 2. -/
theorem c6_count_mode_selector_witness :
    ([msgCmd, msgOther, msgAnchor].length = 2 + 1) ∧
    (summarize_count_select [msgCmd, msgOther, msgAnchor] 2 =
       ([msgCmd, msgOther, msgAnchor].drop 1).reverse ∧
     (summarize_count_select [msgCmd, msgOther, msgAnchor] 2).length = 2) :=
  ⟨by decide, c6_count_mode_selector [msgCmd, msgOther, msgAnchor] 2 (by decide)⟩

/-- C7 (amended): for every token-derivation function and every
duplicate-free state (the invariant of Python's `set`, which cannot hold
duplicates), `opt_out_user` returns true exactly when the token is absent
(and the token is in the set afterwards), `opt_in_user` returns true exactly
when the token is present (and it is absent afterwards); and provided the
identity is not already opted out, `opt_out_user` twice returns true then
false, and `opt_out_user` followed by `opt_in_user` restores
`is_user_opted_out` to its prior value.  (For a state already containing the
token the twice/restore clauses fail; see the counterexample.) -/
theorem c7_optout_amended (hash : Nat → String) (opted : List String) (uid : Nat)
    (hnd : opted.Nodup) :
    ((opt_out_user hash opted uid).1 = !(opted.contains (hash uid))) ∧
    (is_user_opted_out hash (opt_out_user hash opted uid).2 uid = true) ∧
    ((opt_in_user hash opted uid).1 = opted.contains (hash uid)) ∧
    (is_user_opted_out hash (opt_in_user hash opted uid).2 uid = false) ∧
    (opted.contains (hash uid) = false →
      (opt_out_user hash opted uid).1 = true ∧
      (opt_out_user hash (opt_out_user hash opted uid).2 uid).1 = false ∧
      is_user_opted_out hash (opt_in_user hash (opt_out_user hash opted uid).2 uid).2 uid =
        is_user_opted_out hash opted uid) := by
  refine ⟨?_, ?_, ?_, ?_, ?_⟩
  · by_cases h : hash uid ∈ opted <;> simp [opt_out_user, h]
  · by_cases h : hash uid ∈ opted <;>
      simp [opt_out_user, is_user_opted_out, h]
  · by_cases h : hash uid ∈ opted <;> simp [opt_in_user, h]
  · by_cases h : hash uid ∈ opted
    · simp [opt_in_user, is_user_opted_out, h, hnd.not_mem_erase]
    · simp [opt_in_user, is_user_opted_out, h]
  · intro h
    have hmem : hash uid ∉ opted := by simpa using h
    have h1 : opt_out_user hash opted uid = (true, hash uid :: opted) := by
      simp [opt_out_user, hmem]
    refine ⟨by simp [h1], ?_, ?_⟩
    · rw [h1]
      simp [opt_out_user]
    · rw [h1]
      simp [opt_in_user, is_user_opted_out, List.erase_cons_head, hmem]

/-- A concrete token-derivation function for the counterexample. -/
def hashConst : Nat → String := fun _ => "t"

/-- C7 counterexample: from a state already containing the identity's token,
calling `opt_out_user` twice returns false then false (not true then false),
and `opt_out_user` followed by `opt_in_user` leaves the identity opted in
although it was opted out before — so the claim fails for some states. -/
theorem c7_optout_counterexample :
    (opt_out_user hashConst ["t"] 0).1 = false ∧
    (opt_out_user hashConst (opt_out_user hashConst ["t"] 0).2 0).1 = false ∧
    is_user_opted_out hashConst ["t"] 0 = true ∧
    is_user_opted_out hashConst
      (opt_in_user hashConst (opt_out_user hashConst ["t"] 0).2 0).2 0 = false := by
  decide

/-- Witness for `c7_optout_amended`: at the duplicate-free state
containing the token, `opt_in_user` leaves the token absent; at the empty
state, the opt-out-twice and restore clauses hold. -/
theorem c7_optout_witness :
    ((["t"] : List String).Nodup ∧
     is_user_opted_out hashConst (opt_in_user hashConst ["t"] 0).2 0 = false) ∧
    (([] : List String).Nodup ∧ ([] : List String).contains (hashConst 0) = false ∧
     ((opt_out_user hashConst [] 0).1 = true ∧
      (opt_out_user hashConst (opt_out_user hashConst [] 0).2 0).1 = false ∧
      is_user_opted_out hashConst (opt_in_user hashConst (opt_out_user hashConst [] 0).2 0).2 0 =
        is_user_opted_out hashConst [] 0)) :=
  ⟨⟨by decide, (c7_optout_amended hashConst ["t"] 0 (by decide)).2.2.2.1⟩,
   ⟨by decide, by decide,
    (c7_optout_amended hashConst [] 0 (by decide)).2.2.2.2 (by decide)⟩⟩

/-! ## Media fetcher (src/bot/handlers/media_handler.py) -/

/-- `MediaHandler.supported_image_types`. -/
def supported_image_types : List String :=
  ["image/jpeg", "image/png", "image/gif", "image/webp"]

/-- `MediaHandler.supported_video_types`. -/
def supported_video_types : List String :=
  ["video/mp4", "video/mpeg", "video/quicktime", "video/webm"]

/-- `MediaHandler.supported_audio_types`. -/
def supported_audio_types : List String :=
  ["audio/mpeg", "audio/wav", "audio/ogg", "audio/webm"]

/-- `MediaHandler.max_file_size` (20 MB). -/
def max_file_size : Nat := 20 * 1024 * 1024

/-- `MediaHandler.max_video_size` (100 MB). -/
def max_video_size : Nat := 100 * 1024 * 1024

/-- The extension table of `MediaHandler._get_mime_type`. -/
def mime_map : List (String × String) :=
  [("jpg", "image/jpeg"), ("jpeg", "image/jpeg"),
   ("png", "image/png"), ("gif", "image/gif"), ("webp", "image/webp"),
   ("mp4", "video/mp4"), ("mov", "video/quicktime"), ("webm", "video/webm"),
   ("mpeg", "video/mpeg"), ("mpg", "video/mpeg"),
   ("mp3", "audio/mpeg"), ("wav", "audio/wav"), ("ogg", "audio/ogg"),
   ("weba", "audio/webm"), ("m4a", "audio/mp4")]

/-- `MediaHandler._get_mime_type(filename)`:
`filename.lower().split('.')[-1]` looked up in the extension table. -/
def get_mime_type (filename : String) : Option String :=
  let ext := String.mk (((filename.toList.map Char.toLower).splitOn '.').getLastD [])
  mime_map.lookup ext

/-- `MediaHandler._is_supported_media(mime_type)`. -/
def is_supported_media (mime_type : String) : Bool :=
  supported_image_types.contains mime_type ||
  supported_video_types.contains mime_type ||
  supported_audio_types.contains mime_type

/-- Python's substring test `pat in s`. -/
def containsSub (pat s : List Char) : Bool :=
  (List.range (s.length + 1)).any (fun i => pat.isPrefixOf (s.drop i))

/-- `attachment.content_type and 'video' in attachment.content_type`. -/
def isVideoTyped (a : Attachment) : Bool :=
  match a.content_type with
  | some ct => containsSub "video".toList ct.toList
  | none => false

/-- The effective size cap chosen by `download_attachment`. -/
def effective_cap (a : Attachment) : Nat :=
  if isVideoTyped a then max_video_size else max_file_size

/-- `attachment.content_type or self._get_mime_type(attachment.filename)`. -/
def resolveMime (a : Attachment) : Option String :=
  match a.content_type with
  | some ct => some ct
  | none => get_mime_type a.filename

/-- `MediaHandler.download_attachment(attachment)`: size check, MIME
resolution and support check, then the byte download; any non-200 response
or transport fault yields `none` (the surrounding `try/except` turns every
fault into `None`, never an exception). -/
def download_attachment (a : Attachment) : Option (List Nat × String) :=
  if effective_cap a < a.size then none
  else
    match resolveMime a with
    | none => none
    | some mime_type =>
      if !(is_supported_media mime_type) then none
      else
        match a.transport with
        | Transport.response status data =>
          if status = 200 then some (data, mime_type) else none
        | Transport.fault => none

/-- `MediaHandler.get_media_type_name(mime_type)`. -/
def get_media_type_name (mime_type : String) : String :=
  if strStartsWith mime_type "image" then "Image"
  else if strStartsWith mime_type "video" then "Video"
  else if strStartsWith mime_type "audio" then "Audio"
  else "Media"

/-! ## Content assembler (src/bot/handlers/message_handler.py)

The assembled `content_parts` list holds Python strings and `types.Part`
media objects.  Each element is tagged by the source-code site that
appended it; the payload of each text tag is exactly the string the source
builds there. -/

/-- One element of `content_parts`. -/
inductive Segment where
  | gap : Segment
  | msgText : String → Segment
  | mediaAttrib : String → Segment
  | mediaPart : List Nat → String → Segment
  | mediaFailedNote : String → Segment
  | unsupportedNote : String → Segment
deriving Repr, DecidableEq

/-- The string content of the time-gap marker segment. -/
def gapMarker : String := "\n--- TIME GAP ---\n"

/-- Is this segment one of the per-message attribution text lines? -/
def isMsgText : Segment → Bool
  | Segment.msgText _ => true
  | _ => false

/-- Does the segment's text content contain `pat` as a substring? -/
def segMentions (pat : String) : Segment → Bool
  | Segment.gap => containsSub pat.toList gapMarker.toList
  | Segment.msgText s => containsSub pat.toList s.toList
  | Segment.mediaAttrib s => containsSub pat.toList s.toList
  | Segment.mediaPart _ _ => false
  | Segment.mediaFailedNote s => containsSub pat.toList s.toList
  | Segment.unsupportedNote s => containsSub pat.toList s.toList

/-- `MessageProcessor._create_message_id_map(messages)`: message id to
1-based chronological sequence number, over ALL window messages. -/
def create_message_id_map (messages : List Msg) : List (Nat × Nat) :=
  messages.enum.map (fun p => (p.2.id, p.1 + 1))

/-- `message.author.display_name or message.author.name`. -/
def displayName (m : Msg) : String :=
  if m.author_display_name = "" then m.author_name else m.author_display_name

/-- `message.created_at.strftime("%Y-%m-%d %H:%M:%S UTC")`, with the
calendar rendering of the timestamp abstracted to its integer value. -/
def timestampStr (t : Int) : String := toString t ++ " UTC"

/-- The reply-reference rendering of `format_messages_for_ai_interlaced`:
a reference resolved through the sequence-number map renders with the
sequence number, an unresolved one with the outside-conversation wording. -/
def replyInfo (map : List (Nat × Nat)) (m : Msg) : String :=
  match m.reference with
  | none => ""
  | some rid =>
    match map.lookup rid with
    | some n => " [Replying to Message #" ++ toString n ++ "]"
    | none => " [Replying to message outside conversation]"

/-- `MessageProcessor._process_embeds(message)`. -/
def process_embeds (m : Msg) : List String :=
  m.embeds.filterMap (fun e =>
    let embed_text : List String :=
      (e.title.map (fun t => "**Embed Title:** " ++ t)).toList ++
      (e.description.map (fun d => "**Embed Description:** " ++ d)).toList ++
      (e.url.map (fun u => "**Embed URL:** " ++ u)).toList ++
      e.fields.map (fun f => "**" ++ f.name ++ ":** " ++ f.value) ++
      (e.image.map (fun u => "**Embed Image:** " ++ u)).toList ++
      (e.video.map (fun u => "**Embed Video:** " ++ u)).toList ++
      (e.thumbnail.map (fun u => "**Embed Thumbnail:** " ++ u)).toList
    if embed_text.isEmpty then none
    else some (String.intercalate "\n" embed_text))

/-- The emoji-name rendering shared by the two reaction formatters. -/
def emojiName : Emoji → String
  | Emoji.unicode s => s
  | Emoji.custom n => ":" ++ n ++ ":"

/-- `MessageProcessor._process_reactions(message)` (count-only fallback). -/
def process_reactions (m : Msg) : String :=
  if m.reactions.isEmpty then ""
  else
    let reaction_info := m.reactions.map (fun r =>
      emojiName r.emoji ++ "(" ++ toString r.count ++ ")")
    if reaction_info.isEmpty then ""
    else " [Reactions: " ++ String.intercalate ", " reaction_info ++ "]"

/-- `user.display_name or user.name` for a reacting user. -/
def reactionUserName (u : ReactionUser) : String :=
  if u.display_name = "" then u.name else u.display_name

/-- `MessageProcessor._get_reaction_users(message)`: up to 5 visible
(non-opted-out) reacting users per emoji, with an "and K others" tail when
the true count exceeds the sample and a bare count when no visible user
remains; if enumerating users raises, fall back to `_process_reactions`. -/
def get_reaction_users (optedOut : Nat → Bool) (m : Msg) : String :=
  if m.reactions.isEmpty then ""
  else if m.reaction_fetch_fails then process_reactions m
  else
    let reaction_details := m.reactions.map (fun r =>
      let users := ((r.users.filter (fun u => !optedOut u.id)).map reactionUserName).take 5
      if !users.isEmpty then
        if users.length < r.count then
          emojiName r.emoji ++ ": " ++ String.intercalate ", " users ++
            " and " ++ toString (r.count - users.length) ++ " others"
        else emojiName r.emoji ++ ": " ++ String.intercalate ", " users
      else emojiName r.emoji ++ ": " ++ toString r.count ++ " users")
    if reaction_details.isEmpty then ""
    else " [Reactions: " ++ String.intercalate " | " reaction_details ++ "]"

/-- The attribution text line for one message. -/
def messageText (optedOut : Nat → Bool) (map : List (Nat × Nat)) (m : Msg) : String :=
  let content := if m.content = "" then "[No text content]" else m.content
  let content :=
    match process_embeds m with
    | [] => content
    | infos => content ++ " [Embeds: " ++ String.intercalate " | " infos ++ "]"
  "Message #" ++ toString ((map.lookup m.id).getD 0) ++ " | " ++ displayName m ++
    " | " ++ content ++ replyInfo map m ++ get_reaction_users optedOut m ++
    " | " ++ timestampStr m.created_at

/-- The per-attachment segments: a successful fetch yields an attribution
line immediately followed by the media part (or a processing-failure note
when `types.Part.from_bytes` raises); a `None` from the fetcher yields the
unsupported-attachment note. -/
def attachmentSegments (mid : Nat) (dn : String) (a : Attachment) : List Segment :=
  match download_attachment a with
  | some (data, mime_type) =>
    if a.part_fails then
      [Segment.mediaFailedNote
        ("[Media processing failed for Message #" ++ toString mid ++ " by " ++ dn ++
          ": " ++ a.filename ++ "]")]
    else
      [Segment.mediaAttrib
        ("[" ++ get_media_type_name mime_type ++ " from Message #" ++ toString mid ++
          " by " ++ dn ++ ": " ++ a.filename ++ "]"),
       Segment.mediaPart data mime_type]
  | none =>
    [Segment.unsupportedNote
      ("[Unsupported attachment in Message #" ++ toString mid ++ " by " ++ dn ++
        ": " ++ a.filename ++ "]")]

/-- The time-gap check of the loop: a gap marker is inserted when a previous
included message exists and the gap exceeds the configured threshold. -/
def gapSegs (gapMinutes : Nat) (prev : Option Int) (m : Msg) : List Segment :=
  match prev with
  | some p => if (gapMinutes : Int) * 60 < m.created_at - p then [Segment.gap] else []
  | none => []

/-- All segments contributed by one (non-excluded) message: optional
time-gap marker, the attribution text line, then the attachment segments. -/
def messageSegments (optedOut : Nat → Bool) (gapMinutes : Nat)
    (map : List (Nat × Nat)) (prev : Option Int) (m : Msg) : List Segment :=
  gapSegs gapMinutes prev m ++
  [Segment.msgText (messageText optedOut map m)] ++
  (m.attachments.map (attachmentSegments ((map.lookup m.id).getD 0) (displayName m))).flatten

/-- The per-message loop of `format_messages_for_ai_interlaced`: opted-out
authors are skipped entirely (without updating `prev_time`); otherwise the
message contributes its segments and `prev_time` advances. -/
def formatLoop (optedOut : Nat → Bool) (gapMinutes : Nat)
    (map : List (Nat × Nat)) : Option Int → List Msg → List Segment
  | _, [] => []
  | prev, m :: rest =>
    if optedOut m.author_id then formatLoop optedOut gapMinutes map prev rest
    else
      messageSegments optedOut gapMinutes map prev m ++
        formatLoop optedOut gapMinutes map (some m.created_at) rest

/-- `MessageProcessor.format_messages_for_ai_interlaced(messages)`,
parameterised by the privacy predicate and the configured
`time_gap_threshold_minutes`. -/
def format_messages_for_ai_interlaced (optedOut : Nat → Bool)
    (gapMinutes : Nat) (messages : List Msg) : List Segment :=
  if messages.isEmpty then []
  else formatLoop optedOut gapMinutes (create_message_id_map messages) none messages

/-! ### Assembler lemmas -/

theorem attachmentSegments_no_msgText (mid : Nat) (dn : String) (a : Attachment) :
    (attachmentSegments mid dn a).filter isMsgText = [] := by
  unfold attachmentSegments
  cases h : download_attachment a with
  | none => simp [isMsgText]
  | some pr =>
    cases pr with
    | mk data mime_type =>
      by_cases hp : a.part_fails <;> simp [hp, isMsgText]

theorem attachList_no_msgText (mid : Nat) (dn : String) (l : List Attachment) :
    ((l.map (attachmentSegments mid dn)).flatten).filter isMsgText = [] := by
  induction l with
  | nil => rfl
  | cons a t ih =>
    simp only [List.map_cons, List.flatten_cons, List.filter_append, ih,
      attachmentSegments_no_msgText, List.append_nil]

theorem gapSegs_no_msgText (g : Nat) (prev : Option Int) (m : Msg) :
    (gapSegs g prev m).filter isMsgText = [] := by
  unfold gapSegs
  cases prev with
  | none => rfl
  | some p => by_cases h : (g : Int) * 60 < m.created_at - p <;> simp [h, isMsgText]

theorem messageSegments_one_msgText (o : Nat → Bool) (g : Nat)
    (map : List (Nat × Nat)) (prev : Option Int) (m : Msg) :
    ((messageSegments o g map prev m).filter isMsgText).length = 1 := by
  unfold messageSegments
  rw [List.filter_append, List.filter_append, List.length_append, List.length_append,
    gapSegs_no_msgText, attachList_no_msgText]
  simp [isMsgText]

theorem formatLoop_msgText_count (o : Nat → Bool) (g : Nat)
    (map : List (Nat × Nat)) (ms : List Msg) :
    ∀ prev, ((formatLoop o g map prev ms).filter isMsgText).length =
      (ms.filter (fun m => !o m.author_id)).length := by
  induction ms with
  | nil => intro prev; rfl
  | cons m rest ih =>
    intro prev
    unfold formatLoop
    by_cases ho : o m.author_id
    · rw [if_pos ho, ih]
      simp [ho]
    · rw [if_neg ho, List.filter_append, List.length_append, ih,
        messageSegments_one_msgText]
      simp [ho]
      omega

/-! ### Claim theorems: assembler and media fetcher -/

/-- C1 (amended): for every 5-message window whose third author (and only
that author) is opted out and whose ids are distinct, the output has exactly
4 message text segments; but the sequence-number index is built over ALL
window messages, excluded ones included, so a reply in message 5 pointing at
message 3 resolves to sequence number 3 and renders as
" [Replying to Message #3]" — not with the outside-conversation wording,
which is reserved for references to messages outside the window. -/
theorem c1_privacy_reply_amended (o : Nat → Bool) (g : Nat) (m1 m2 m3 m4 m5 : Msg)
    (h1 : o m1.author_id = false) (h2 : o m2.author_id = false)
    (h3 : o m3.author_id = true) (h4 : o m4.author_id = false)
    (h5 : o m5.author_id = false)
    (h13 : m1.id ≠ m3.id) (h23 : m2.id ≠ m3.id)
    (href : m5.reference = some m3.id) :
    ((format_messages_for_ai_interlaced o g [m1, m2, m3, m4, m5]).filter isMsgText).length = 4 ∧
    replyInfo (create_message_id_map [m1, m2, m3, m4, m5]) m5 =
      " [Replying to Message #3]" := by
  constructor
  · unfold format_messages_for_ai_interlaced
    rw [if_neg (by simp)]
    rw [formatLoop_msgText_count]
    simp [h1, h2, h3, h4, h5]
  · unfold replyInfo
    rw [href]
    have hmap : create_message_id_map [m1, m2, m3, m4, m5] =
        [(m1.id, 1), (m2.id, 2), (m3.id, 3), (m4.id, 4), (m5.id, 5)] := rfl
    rw [hmap]
    have e1 : (m3.id == m1.id) = false := beq_eq_false_iff_ne.mpr (Ne.symm h13)
    have e2 : (m3.id == m2.id) = false := beq_eq_false_iff_ne.mpr (Ne.symm h23)
    simp [List.lookup, e1, e2]
    decide

/-- A minimal message for concrete assembler scenarios. -/
def mkPlainMsg (i aid : Nat) (ts : Int) (content : String) (ref : Option Nat) : Msg :=
  ⟨i, aid, "U", "", ts, content, ref, [], [], false, []⟩

/-- The 5-message window of the privacy-law scenario: the third message's
author (20) is opted out, message 5 replies to message 3. -/
def c1msgs : List Msg :=
  [mkPlainMsg 1 10 0 "m1" none, mkPlainMsg 2 11 60 "m2" none,
   mkPlainMsg 3 20 120 "m3" none, mkPlainMsg 4 12 180 "m4" none,
   mkPlainMsg 5 13 240 "m5" (some 3)]

/-- The privacy predicate opting out exactly author 20. -/
def c1opted : Nat → Bool := fun a => a == 20

/-- C1 counterexample: in the concrete 5-message window with the third
author opted out and message 5 replying to message 3, the output has 4
message text segments, but NO segment carries the "outside conversation"
wording — the reply resolves to "[Replying to Message #3]", contradicting
the claimed rendering. -/
theorem c1_privacy_reply_counterexample :
    ((format_messages_for_ai_interlaced c1opted 30 c1msgs).filter isMsgText).length = 4 ∧
    (format_messages_for_ai_interlaced c1opted 30 c1msgs).any
      (segMentions "outside conversation") = false ∧
    (format_messages_for_ai_interlaced c1opted 30 c1msgs).any
      (segMentions "[Replying to Message #3]") = true := by
  decide

/-- Witness for `c1_privacy_reply_amended` on the concrete window. -/
theorem c1_privacy_reply_witness :
    (c1opted 10 = false ∧ c1opted 11 = false ∧ c1opted 20 = true ∧
     c1opted 12 = false ∧ c1opted 13 = false ∧
     (1 : Nat) ≠ 3 ∧ (2 : Nat) ≠ 3 ∧
     (mkPlainMsg 5 13 240 "m5" (some 3)).reference = some 3) ∧
    (((format_messages_for_ai_interlaced c1opted 30 c1msgs).filter isMsgText).length = 4 ∧
     replyInfo (create_message_id_map c1msgs) (mkPlainMsg 5 13 240 "m5" (some 3)) =
       " [Replying to Message #3]") :=
  ⟨by decide,
   c1_privacy_reply_amended c1opted 30 _ _ _ _ _ (by decide) (by decide) (by decide)
     (by decide) (by decide) (by decide) (by decide) (by decide)⟩

/-- C4 (amended): a `None` from the media fetcher — whether the attachment
was rejected as unsupported/oversized or the byte download itself failed —
yields the single "[Unsupported attachment ...]" note; the distinct
"[Media processing failed ...]" wording appears only when media-part
construction fails after a successful download; and in every case the loop
continues with the rest of the message and the remaining messages. -/
theorem c4_attachment_notes_amended (a : Attachment) (mid : Nat) (dn : String) :
    (download_attachment a = none →
      attachmentSegments mid dn a =
        [Segment.unsupportedNote
          ("[Unsupported attachment in Message #" ++ toString mid ++ " by " ++ dn ++
            ": " ++ a.filename ++ "]")]) ∧
    (∀ data mime_type, download_attachment a = some (data, mime_type) →
      a.part_fails = true →
      attachmentSegments mid dn a =
        [Segment.mediaFailedNote
          ("[Media processing failed for Message #" ++ toString mid ++ " by " ++ dn ++
            ": " ++ a.filename ++ "]")]) ∧
    (∀ data mime_type, download_attachment a = some (data, mime_type) →
      a.part_fails = false →
      attachmentSegments mid dn a =
        [Segment.mediaAttrib
          ("[" ++ get_media_type_name mime_type ++ " from Message #" ++ toString mid ++
            " by " ++ dn ++ ": " ++ a.filename ++ "]"),
         Segment.mediaPart data mime_type]) ∧
    (∀ (o : Nat → Bool) (g : Nat) (map : List (Nat × Nat)) (prev : Option Int)
        (m : Msg) (rest : List Msg), o m.author_id = false →
      formatLoop o g map prev (m :: rest) =
        messageSegments o g map prev m ++ formatLoop o g map (some m.created_at) rest) := by
  refine ⟨?_, ?_, ?_, ?_⟩
  · intro h
    unfold attachmentSegments
    rw [h]
  · intro data mime_type h hp
    unfold attachmentSegments
    rw [h]
    simp [hp]
  · intro data mime_type h hp
    unfold attachmentSegments
    rw [h]
    simp [hp]
  · intro o g map prev m rest ho
    simp only [formatLoop]
    rw [if_neg (by simp [ho])]

/-- An attachment over the 20 MB non-video cap (fetch rejected before any
download is attempted). -/
def attOversized : Attachment := ⟨"f.png", some "image/png", 30000000, Transport.response 200 [1], false⟩

/-- A small supported attachment whose byte download faults. -/
def attFault : Attachment := ⟨"f.png", some "image/png", 100, Transport.fault, false⟩

/-- A small supported attachment that downloads fine. -/
def attOk : Attachment := ⟨"g.png", some "image/png", 100, Transport.response 200 [7], false⟩

/-- A message carrying the three attachments above. -/
def c4msg : Msg := ⟨1, 10, "Alice", "", 0, "hi", none, [], [], false, [attOversized, attFault, attOk]⟩

/-- C4 counterexample: the oversized rejection and the transport-fault
failure produce the SAME "[Unsupported attachment ...]" wording (the two
identical notes below), contradicting the claimed distinct wordings — while
assembly does continue through the remaining attachment. -/
theorem c4_attachment_notes_counterexample :
    format_messages_for_ai_interlaced (fun _ => false) 30 [c4msg] =
      [Segment.msgText "Message #1 | Alice | hi | 0 UTC",
       Segment.unsupportedNote "[Unsupported attachment in Message #1 by Alice: f.png]",
       Segment.unsupportedNote "[Unsupported attachment in Message #1 by Alice: f.png]",
       Segment.mediaAttrib "[Image from Message #1 by Alice: g.png]",
       Segment.mediaPart [7] "image/png"] := by
  decide

/-- Witness for `c4_attachment_notes_amended` at the faulting attachment. -/
theorem c4_attachment_notes_witness :
    download_attachment attFault = none ∧
    attachmentSegments 1 "Alice" attFault =
      [Segment.unsupportedNote "[Unsupported attachment in Message #1 by Alice: f.png]"] :=
  ⟨by decide, (c4_attachment_notes_amended attFault 1 "Alice").1 (by decide)⟩

/-- C8: `download_attachment` uses a 100 MB cap for video-typed declared
content and 20 MB otherwise, rejects over-cap attachments without attempting
the download (for every transport outcome), rejects attachments whose
resolved MIME type is missing or unsupported, and returns `None` — never an
exception — on a transport fault or a non-200 response. -/
theorem c8_media_fetch_policy (a : Attachment) :
    (effective_cap a = if isVideoTyped a then 104857600 else 20971520) ∧
    (effective_cap a < a.size →
      ∀ t : Transport, download_attachment { a with transport := t } = none) ∧
    ((∀ mt, resolveMime a = some mt → is_supported_media mt = false) →
      download_attachment a = none) ∧
    (a.transport = Transport.fault → download_attachment a = none) ∧
    (∀ status data, a.transport = Transport.response status data → status ≠ 200 →
      download_attachment a = none) := by
  refine ⟨?_, ?_, ?_, ?_, ?_⟩
  · by_cases h : isVideoTyped a <;>
      simp [effective_cap, max_video_size, max_file_size, h]
  · intro hcap t
    have hcap2 : effective_cap { a with transport := t } <
        ({ a with transport := t } : Attachment).size := hcap
    unfold download_attachment
    rw [if_pos hcap2]
  · intro hmt
    unfold download_attachment
    by_cases hcap : effective_cap a < a.size
    · rw [if_pos hcap]
    · rw [if_neg hcap]
      cases hr : resolveMime a with
      | none => rfl
      | some mt =>
        have := hmt mt hr
        simp [this]
  · intro ht
    unfold download_attachment
    by_cases hcap : effective_cap a < a.size
    · rw [if_pos hcap]
    · rw [if_neg hcap]
      cases hr : resolveMime a with
      | none => rfl
      | some mt =>
        by_cases hs : is_supported_media mt
        · simp [hs, ht]
        · simp [hs]
  · intro status data ht hstatus
    unfold download_attachment
    by_cases hcap : effective_cap a < a.size
    · rw [if_pos hcap]
    · rw [if_neg hcap]
      cases hr : resolveMime a with
      | none => rfl
      | some mt =>
        by_cases hs : is_supported_media mt
        · simp [hs, ht, hstatus]
        · simp [hs]

/-- Witness for `c8_media_fetch_policy`: the oversized attachment is
rejected for every transport outcome, and the faulting attachment yields
`None` rather than an exception. -/
theorem c8_media_fetch_policy_witness :
    (effective_cap attOversized < attOversized.size ∧
     download_attachment { attOversized with transport := Transport.fault } = none) ∧
    (attFault.transport = Transport.fault ∧
     download_attachment attFault = none) :=
  ⟨⟨by decide, (c8_media_fetch_policy attOversized).2.1 (by decide) Transport.fault⟩,
   ⟨by decide, (c8_media_fetch_policy attFault).2.2.2.1 (by decide)⟩⟩

/-! ## AI service (src/bot/handlers/gemini_service.py)

`generate_summary` is modelled with the two external calls as explicit
outcome parameters: `count_result` is the result of the provider's
`count_tokens` call (`none` when it raises, triggering the local fallback
estimate), and `provider` is the outcome of the `generate_content` call
(error text for any raised exception, including response extraction). -/

/-- One element of the `content_parts` list as the AI service sees it:
a Python string or a `types.Part` with a MIME type. -/
inductive GPart where
  | str (s : String)
  | media (mime : String)
deriving Repr, DecidableEq

/-- The outcome of the provider's `generate_content` call: a successful
response text together with `usage_metadata.candidates_token_count`
(`none` when the provider reports no count), or a raised exception's
message. -/
inductive ProviderOutcome where
  | ok (text : String) (response_tokens : Option Nat)
  | err (msg : String)
deriving Repr, DecidableEq

/-- The `except` fallback of `estimate_tokens_with_content_parts`:
`len(part) // 4` per string, fixed per-category constants per media part. -/
def fallback_estimate (parts : List GPart) : Nat :=
  parts.foldl (fun acc p =>
    acc + match p with
      | GPart.str s => s.length / 4
      | GPart.media mime =>
        if strStartsWith mime "image" then 500
        else if strStartsWith mime "video" then 2000
        else if strStartsWith mime "audio" then 1000
        else 0) 0

/-- `AIService.estimate_tokens_with_content_parts(content_parts)`:
0 for empty input, the provider's count when the counting call succeeds,
the local fallback when it raises. -/
def estimate_tokens_with_content_parts (count_result : Option Nat)
    (parts : List GPart) : Nat :=
  if parts.isEmpty then 0
  else
    match count_result with
    | some n => n
    | none => fallback_estimate parts

/-- `AIService.generate_summary(content_parts)` at time `now` with rate
limiter state `st`: returns the user-visible text and the resulting limiter
state.  Every branch returns a string; no branch raises or retries. -/
def generate_summary (count_result : Option Nat) (provider : ProviderOutcome)
    (st : RLState) (now : Int) (parts : List GPart) : String × RLState :=
  if parts.isEmpty then ("No content available to summarize.", st)
  else
    if 1000000 < estimate_tokens_with_content_parts count_result parts then
      ("Error: Message history too long to summarize. Try with fewer messages.", st)
    else
      if (can_make_request st (estimate_tokens_with_content_parts count_result parts) now).2 = false then
        ("Rate limit reached. Please wait before making another request.",
         (can_make_request st (estimate_tokens_with_content_parts count_result parts) now).1)
      else
        match provider with
        | ProviderOutcome.err e =>
          ("Error generating summary: " ++ e,
           (can_make_request st (estimate_tokens_with_content_parts count_result parts) now).1)
        | ProviderOutcome.ok text response_tokens =>
          (text,
           record_request
             (can_make_request st (estimate_tokens_with_content_parts count_result parts) now).1
             (estimate_tokens_with_content_parts count_result parts + response_tokens.getD 0)
             now)

/-! ### Claim theorem: AI service error handling -/

/-- C9: `generate_summary` always returns a user-visible string (it is a
total function of the modelled outcomes): over the token ceiling it returns
the request-a-smaller-window text for EVERY provider outcome (the provider
is not called) and leaves the limiter untouched; on a rate-limit denial it
returns the rate-limit text for every provider outcome, with the limiter
only pruned (nothing recorded); and on a provider error it returns the
error text with nothing recorded and no retry. -/
theorem c9_generate_summary_errors (count_result : Option Nat) (st : RLState)
    (now : Int) (parts : List GPart) :
    (parts ≠ [] →
      1000000 < estimate_tokens_with_content_parts count_result parts →
      ∀ provider, generate_summary count_result provider st now parts =
        ("Error: Message history too long to summarize. Try with fewer messages.", st)) ∧
    (parts ≠ [] →
      estimate_tokens_with_content_parts count_result parts ≤ 1000000 →
      (can_make_request st (estimate_tokens_with_content_parts count_result parts) now).2 = false →
      ∀ provider, generate_summary count_result provider st now parts =
        ("Rate limit reached. Please wait before making another request.",
         (can_make_request st (estimate_tokens_with_content_parts count_result parts) now).1)) ∧
    (parts ≠ [] →
      estimate_tokens_with_content_parts count_result parts ≤ 1000000 →
      (can_make_request st (estimate_tokens_with_content_parts count_result parts) now).2 = true →
      ∀ e, generate_summary count_result (ProviderOutcome.err e) st now parts =
        ("Error generating summary: " ++ e,
         (can_make_request st (estimate_tokens_with_content_parts count_result parts) now).1)) := by
  refine ⟨?_, ?_, ?_⟩
  · intro hne hbig provider
    unfold generate_summary
    rw [if_neg (by simp [hne]), if_pos hbig]
  · intro hne hsmall hdeny provider
    unfold generate_summary
    rw [if_neg (by simp [hne]), if_neg (by omega), if_pos hdeny]
  · intro hne hsmall hok e
    unfold generate_summary
    rw [if_neg (by simp [hne]), if_neg (by omega), if_neg (by simp [hok])]

/-- Witness for `c9_generate_summary_errors`: a counting result over the
ceiling short-circuits for an arbitrary provider outcome; a fresh limiter
admits a small request, and a provider error surfaces as text with the
limiter unchanged. -/
theorem c9_generate_summary_errors_witness :
    (([GPart.str "abcd"] : List GPart) ≠ [] ∧
     1000000 < estimate_tokens_with_content_parts (some 2000000) [GPart.str "abcd"] ∧
     generate_summary (some 2000000) (ProviderOutcome.ok "s" none) initState 0 [GPart.str "abcd"] =
       ("Error: Message history too long to summarize. Try with fewer messages.", initState)) ∧
    (estimate_tokens_with_content_parts (some 7) [GPart.str "abcd"] ≤ 1000000 ∧
     (can_make_request initState (estimate_tokens_with_content_parts (some 7) [GPart.str "abcd"]) 0).2 = true ∧
     generate_summary (some 7) (ProviderOutcome.err "boom") initState 0 [GPart.str "abcd"] =
       ("Error generating summary: boom",
        (can_make_request initState (estimate_tokens_with_content_parts (some 7) [GPart.str "abcd"]) 0).1)) :=
  ⟨⟨by decide, by decide,
    (c9_generate_summary_errors (some 2000000) initState 0 [GPart.str "abcd"]).1
      (by decide) (by decide) (ProviderOutcome.ok "s" none)⟩,
   ⟨by decide, by decide,
    (c9_generate_summary_errors (some 7) initState 0 [GPart.str "abcd"]).2.2
      (by decide) (by decide) (by decide) "boom"⟩⟩
